import Mathlib

/-!
Verification development for the LS-8 style virtual machine in `src/cpu.py`.

The machine state and every method of the `CPU` class that the dispatch loop
can reach are translated here as pure functions over an explicit state
record.  Python integers are unbounded, so cell and register values are
`Int`; Python `%` and `//`/`>>` on integers are floor operations, so they are
translated as `Int.fmod` and `Int.fdiv`; Python `&`, `|`, `^`, `~` on
integers are `Int.land`, `Int.lor`, `Int.xor`, `Int.lnot`.  A Python list
subscript accepts negative indices (counting from the end) and raises
`IndexError` outside `[-len, len)`; `pyGet` / `pySet` reproduce this.
Exceptions and `sys.exit` are modelled by an error component on the result
of each operation.
-/

/-- The Python exceptions and process exits that the interpreter can raise
while the machine runs.  `attributeErrorReg` stands for the
`AttributeError` raised by the lookup `self.reg` (the constructor of `CPU`
only ever assigns `self.register`, never `self.reg`).  `systemExit n` is
`sys.exit(n)`, with `sys.exit()` carrying status 0.  `invalidInstruction`
tags the final `else` branch of the run loop, which prints the
invalid-instruction report plus a trace and calls `sys.exit(1)`. -/
inductive Err where
  | indexError
  | keyError
  | attributeErrorReg
  | valueError
  | zeroDivisionError
  | unsupportedALU
  | systemExit (code : Nat)
  | invalidInstruction
deriving DecidableEq

/-- Pointwise update of a list modelled as a function on positions. -/
def setIdx (f : Nat → Int) (i : Nat) (v : Int) : Nat → Int :=
  fun j => if j = i then v else f j

/-- Python list subscript read `xs[i]` for a list of length `len` whose
cells are `f 0 .. f (len - 1)`: a negative index counts from the end, and
indices outside `[-len, len)` raise `IndexError` (here `none`). -/
def pyGet (f : Nat → Int) (len : Nat) (i : Int) : Option Int :=
  if 0 ≤ i ∧ i < (len : Int) then some (f i.toNat)
  else if -(len : Int) ≤ i ∧ i < 0 then some (f (i + len).toNat)
  else none

/-- Python list subscript write `xs[i] = v`, same index rule as `pyGet`. -/
def pySet (f : Nat → Int) (len : Nat) (i v : Int) : Option (Nat → Int) :=
  if 0 ≤ i ∧ i < (len : Int) then some (setIdx f i.toNat v)
  else if -(len : Int) ≤ i ∧ i < 0 then some (setIdx f (i + len).toNat v)
  else none

/-- Module-level constant `SP = 7` of cpu.py: the stack pointer lives in
register slot 7. -/
def SP : Nat := 7

/-- Length of `self.ram = [0] * 0xFF * 256`, that is 255 * 256 = 65280. -/
def RAM_LEN : Nat := 0xFF * 256

/-- The module-level dict `binary_op` of cpu.py, mapping an opcode byte to
the mnemonic used to index the branch table `self.instructions`.  A lookup
of a key outside the dict raises `KeyError`, hence the `Option`. -/
inductive Mnem where
  | HLT | LDI | PRN | PUSH | POP | CALL | RET | JMP | JEQ | JNE
deriving DecidableEq

def binary_op (IR : Int) : Option Mnem :=
  if IR = 0b00000001 then some .HLT
  else if IR = 0b10000010 then some .LDI
  else if IR = 0b01000111 then some .PRN
  else if IR = 0b01000101 then some .PUSH
  else if IR = 0b01000110 then some .POP
  else if IR = 0b01010000 then some .CALL
  else if IR = 0b00010001 then some .RET
  else if IR = 0b01010100 then some .JMP
  else if IR = 0b01010101 then some .JEQ
  else if IR = 0b01010110 then some .JNE
  else none

/-- The machine state: the attributes assigned by `CPU.__init__`.
`operand_a` and `operand_b` start out as Python `None`, but `run` overwrites
both on every cycle before any handler reads them, so they are modelled as
integers (the initial value in `initState` is immaterial).  The branch
table `self.instructions` is constant and is the function `CPU.instructions`
below. -/
structure CPUState where
  ram : Nat → Int
  PC : Int
  MAR : Option Int
  MDR : Option Int
  register : Nat → Int
  operand_a : Int
  operand_b : Int
  FL : Nat

/-- The state built by `CPU.__init__`: zeroed ram of length `RAM_LEN`,
`PC = 0`, `MAR`/`MDR` unset, eight zero registers except
`register[SP] = 0xF4`, flags clear. -/
def initState : CPUState where
  ram := fun _ => 0
  PC := 0
  MAR := none
  MDR := none
  register := fun i => if i = SP then 0xF4 else 0
  operand_a := 0
  operand_b := 0
  FL := 0b00000000

namespace CPU

/-- `CPU.ram_read`: record the address in `MAR`, then read `self.ram[address]`
into `MDR` and return it.  On an out-of-range address the subscript raises
`IndexError` (`none`) after `MAR` was already set. -/
def ram_read (st : CPUState) (address : Int) : CPUState × Option Int :=
  let st1 := { st with MAR := some address }
  match pyGet st1.ram RAM_LEN address with
  | none => (st1, none)
  | some v => ({ st1 with MDR := some v }, some v)

/-- `CPU.ram_write`: record address and value in `MAR`/`MDR`, then write.
Never called by the run loop; included for completeness. -/
def ram_write (st : CPUState) (value address : Int) : CPUState × Option Err :=
  let st1 := { st with MAR := some address, MDR := some value }
  match pySet st1.ram RAM_LEN address value with
  | none => (st1, some Err.indexError)
  | some r => ({ st1 with ram := r }, none)

/-- `CPU.CALL` (cpu.py lines 66 to 74).  Its first statement is
`self.reg[SP] -= 1`, but the class never assigns an attribute named `reg`
(the constructor assigns `self.register`), so the lookup `self.reg` raises
`AttributeError` before any state is mutated; the push of `PC + 2` and the
assignment to `PC` on the following lines are unreachable. -/
def CALL (st : CPUState) : CPUState × Option Err :=
  (st, some Err.attributeErrorReg)

/-- `CPU.RET`: `self.PC = self.ram[self.register[SP]]`, then
`self.register[SP] += 1`. -/
def RET (st : CPUState) : CPUState × Option Err :=
  match pyGet st.ram RAM_LEN (st.register SP) with
  | none => (st, some Err.indexError)
  | some v =>
    let st1 := { st with PC := v }
    ({ st1 with register := setIdx st1.register SP (st1.register SP + 1) }, none)

/-- `CPU.JMP`: `self.PC = self.register[self.operand_a]`. -/
def JMP (st : CPUState) : CPUState × Option Err :=
  match pyGet st.register 8 st.operand_a with
  | none => (st, some Err.indexError)
  | some v => ({ st with PC := v }, none)

/-- `CPU.JEQ`: if `self.FL & 0b00000001 == 1` jump to the address in the
addressed register, else `self.PC += 2`. -/
def JEQ (st : CPUState) : CPUState × Option Err :=
  if st.FL &&& 0b00000001 = 1 then
    match pyGet st.register 8 st.operand_a with
    | none => (st, some Err.indexError)
    | some v => ({ st with PC := v }, none)
  else ({ st with PC := st.PC + 2 }, none)

/-- `CPU.JNE`: if `self.FL & 0b00000001 == 0` jump to the address in the
addressed register, else `self.PC += 2`. -/
def JNE (st : CPUState) : CPUState × Option Err :=
  if st.FL &&& 0b00000001 = 0 then
    match pyGet st.register 8 st.operand_a with
    | none => (st, some Err.indexError)
    | some v => ({ st with PC := v }, none)
  else ({ st with PC := st.PC + 2 }, none)

/-- `CPU.HALT`: `sys.exit()`, a `SystemExit` with status 0. -/
def HALT (st : CPUState) : CPUState × Option Err :=
  (st, some (Err.systemExit 0))

/-- `CPU.LOAD` (handler of LDI):
`self.register[self.operand_a] = self.operand_b`. -/
def LOAD (st : CPUState) : CPUState × Option Err :=
  match pySet st.register 8 st.operand_a st.operand_b with
  | none => (st, some Err.indexError)
  | some r => ({ st with register := r }, none)

/-- `CPU.PRINT` (handler of PRN): prints `self.register[self.operand_a]` to
standard output.  The output stream is outside the machine state, so only
the register subscript (and its possible `IndexError`) is modelled. -/
def PRINT (st : CPUState) : CPUState × Option Err :=
  match pyGet st.register 8 st.operand_a with
  | none => (st, some Err.indexError)
  | some _ => (st, none)

/-- `CPU.PUSH` (cpu.py lines 110 to 117).  `self.register[SP] -= 1`
succeeds and decrements the stack pointer.  The next statement,
`self.ram[self.reg[SP]] = self.register[self.operand_a]`, first evaluates
its right-hand side (which can raise `IndexError` for a bad operand) and
then the assignment target, where the lookup `self.reg` raises
`AttributeError` because `reg` is never assigned on the CPU.  Either way
PUSH always terminates with an exception, after the SP decrement. -/
def PUSH (st : CPUState) : CPUState × Option Err :=
  let st1 := { st with register := setIdx st.register SP (st.register SP - 1) }
  match pyGet st1.register 8 st1.operand_a with
  | none => (st1, some Err.indexError)
  | some _ => (st1, some Err.attributeErrorReg)

/-- `CPU.POP`: `self.register[self.operand_a] = self.ram[self.register[SP]]`
then `self.register[SP] += 1`. -/
def POP (st : CPUState) : CPUState × Option Err :=
  match pyGet st.ram RAM_LEN (st.register SP) with
  | none => (st, some Err.indexError)
  | some v =>
    match pySet st.register 8 st.operand_a v with
    | none => (st, some Err.indexError)
    | some r =>
      let st1 := { st with register := r }
      ({ st1 with register := setIdx st1.register SP (st1.register SP + 1) }, none)

/-- `CPU.ALU` (cpu.py lines 165 to 207).  The `op` byte is compared in
source order against the entries of the `math_op` dict (the numeric values
are inlined next to each test).  ADD, SUB and MUL use the `reg_a`/`reg_b`
parameters; CMP, AND, OR, XOR, NOT, SHL, SHR and MOD read
`self.operand_a`/`self.operand_b` directly.  CMP runs three independent
`if` statements, each overwriting `FL` wholesale.  SHL and SHR reduce the
shifted value modulo 255 (sic), a negative shift count raises `ValueError`,
`% 0` raises `ZeroDivisionError`, and an unmatched `op` raises the bare
exception, modelled as `unsupportedALU`. -/
def ALU (st : CPUState) (op reg_a reg_b : Int) : CPUState × Option Err :=
  if op = 0b10100000 then -- math_op["ADD"]
    match pyGet st.register 8 reg_a, pyGet st.register 8 reg_b with
    | some va, some vb =>
      match pySet st.register 8 reg_a (va + vb) with
      | some r => ({ st with register := r }, none)
      | none => (st, some Err.indexError)
    | _, _ => (st, some Err.indexError)
  else if op = 0b10100001 then -- math_op["SUB"]
    match pyGet st.register 8 reg_a, pyGet st.register 8 reg_b with
    | some va, some vb =>
      match pySet st.register 8 reg_a (va - vb) with
      | some r => ({ st with register := r }, none)
      | none => (st, some Err.indexError)
    | _, _ => (st, some Err.indexError)
  else if op = 0b10100010 then -- math_op["MUL"]
    match pyGet st.register 8 reg_a, pyGet st.register 8 reg_b with
    | some va, some vb =>
      match pySet st.register 8 reg_a (va * vb) with
      | some r => ({ st with register := r }, none)
      | none => (st, some Err.indexError)
    | _, _ => (st, some Err.indexError)
  else if op = 0b10100111 then -- math_op["CMP"]
    match pyGet st.register 8 st.operand_a, pyGet st.register 8 st.operand_b with
    | some va, some vb =>
      let fl1 : Nat := if va = vb then 0b00000001 else st.FL
      let fl2 : Nat := if va < vb then 0b00000100 else fl1
      let fl3 : Nat := if vb < va then 0b00000010 else fl2
      ({ st with FL := fl3 }, none)
    | _, _ => (st, some Err.indexError)
  else if op = 0b10101000 then -- math_op["AND"]
    match pyGet st.register 8 st.operand_a, pyGet st.register 8 st.operand_b with
    | some va, some vb =>
      match pySet st.register 8 st.operand_a (Int.land va vb) with
      | some r => ({ st with register := r }, none)
      | none => (st, some Err.indexError)
    | _, _ => (st, some Err.indexError)
  else if op = 0b10101010 then -- math_op["OR"]
    match pyGet st.register 8 st.operand_a, pyGet st.register 8 st.operand_b with
    | some va, some vb =>
      match pySet st.register 8 st.operand_a (Int.lor va vb) with
      | some r => ({ st with register := r }, none)
      | none => (st, some Err.indexError)
    | _, _ => (st, some Err.indexError)
  else if op = 0b10101011 then -- math_op["XOR"]
    match pyGet st.register 8 st.operand_a, pyGet st.register 8 st.operand_b with
    | some va, some vb =>
      match pySet st.register 8 st.operand_a (Int.xor va vb) with
      | some r => ({ st with register := r }, none)
      | none => (st, some Err.indexError)
    | _, _ => (st, some Err.indexError)
  else if op = 0b01101001 then -- math_op["NOT"]; Python ~x is -x - 1
    match pyGet st.register 8 st.operand_a with
    | some va =>
      match pySet st.register 8 st.operand_a (Int.lnot va) with
      | some r => ({ st with register := r }, none)
      | none => (st, some Err.indexError)
    | none => (st, some Err.indexError)
  else if op = 0b10101100 then -- math_op["SHL"]
    match pyGet st.register 8 st.operand_b with
    | none => (st, some Err.indexError)
    | some nb =>
      match pyGet st.register 8 st.operand_a with
      | none => (st, some Err.indexError)
      | some va =>
        if nb < 0 then (st, some Err.valueError)
        else
          match pySet st.register 8 st.operand_a (Int.fmod (va * 2 ^ nb.toNat) 255) with
          | some r => ({ st with register := r }, none)
          | none => (st, some Err.indexError)
  else if op = 0b10101101 then -- math_op["SHR"]
    match pyGet st.register 8 st.operand_b with
    | none => (st, some Err.indexError)
    | some nb =>
      match pyGet st.register 8 st.operand_a with
      | none => (st, some Err.indexError)
      | some va =>
        if nb < 0 then (st, some Err.valueError)
        else
          match pySet st.register 8 st.operand_a (Int.fmod (Int.fdiv va (2 ^ nb.toNat)) 255) with
          | some r => ({ st with register := r }, none)
          | none => (st, some Err.indexError)
  else if op = 0b10100100 then -- math_op["MOD"]
    match pyGet st.register 8 st.operand_a, pyGet st.register 8 st.operand_b with
    | some va, some vb =>
      if vb = 0 then (st, some Err.zeroDivisionError)
      else
        match pySet st.register 8 st.operand_a (Int.fmod va vb) with
        | some r => ({ st with register := r }, none)
        | none => (st, some Err.indexError)
    | _, _ => (st, some Err.indexError)
  else
    (st, some Err.unsupportedALU) -- raise Exception("Unsupported ALU operation")

/-- The branch table `self.instructions` built in `__init__`: every one of
the ten mnemonics produced by `binary_op` is a key, so the lookup
`self.instructions[...]` is total. -/
def instructions : Mnem → CPUState → CPUState × Option Err
  | .HLT => HALT
  | .LDI => LOAD
  | .PRN => PRINT
  | .PUSH => PUSH
  | .POP => POP
  | .CALL => CALL
  | .RET => RET
  | .JMP => JMP
  | .JEQ => JEQ
  | .JNE => JNE

/-- `CPU.move_PC` (cpu.py lines 225 to 229):
`if (IR << 3) % 255 >> 7 != 1: self.PC += (IR >> 6) + 1`.
On Python integers `IR << 3` is `IR * 8`, `% 255` is `Int.fmod`, and
`>> 7` / `>> 6` are floor divisions by 128 / 64. -/
def move_PC (st : CPUState) (IR : Int) : CPUState :=
  if Int.fdiv (Int.fmod (IR * 8) 255) 128 ≠ 1 then
    { st with PC := st.PC + (Int.fdiv IR 64 + 1) }
  else st

/-- The routing expression `(IR << 2) % 255 >> 7` of the run loop. -/
def route_test (IR : Int) : Int :=
  Int.fdiv (Int.fmod (IR * 4) 255) 128

/-- One iteration of the `while True` body of `CPU.run` (cpu.py lines 231
to 246): fetch `IR` and the two candidate operands through `ram_read`,
route on `(IR << 2) % 255 >> 7` (1 = ALU, 0 = branch table, anything else
= the invalid-instruction report plus `sys.exit(1)`, whose `trace` call
performs three further `ram_read`s), and apply `move_PC` after a handler
that returned normally. -/
def step (st : CPUState) : CPUState × Option Err :=
  match ram_read st st.PC with
  | (st1, none) => (st1, some Err.indexError)
  | (st1, some IR) =>
    match ram_read st1 (st1.PC + 1) with
    | (st2, none) => (st2, some Err.indexError)
    | (st2, some a) =>
      let st2a := { st2 with operand_a := a }
      match ram_read st2a (st2a.PC + 2) with
      | (st3, none) => (st3, some Err.indexError)
      | (st3, some b) =>
        let st3b := { st3 with operand_b := b }
        if route_test IR = 1 then
          match ALU st3b IR st3b.operand_a st3b.operand_b with
          | (st4, some e) => (st4, some e)
          | (st4, none) => (move_PC st4 IR, none)
        else if route_test IR = 0 then
          match binary_op IR with
          | none => (st3b, some Err.keyError)
          | some m =>
            match instructions m st3b with
            | (st4, some e) => (st4, some e)
            | (st4, none) => (move_PC st4 IR, none)
        else
          match ram_read st3b st3b.PC with
          | (t1, _) =>
            match ram_read t1 (st3b.PC + 1) with
            | (t2, _) =>
              match ram_read t2 (st3b.PC + 2) with
              | (t3, _) => (t3, some Err.invalidInstruction)

end CPU

/-! ## Concrete machine states used by the claim theorems -/

/-- State whose memory holds 163 = 0b10100011 everywhere: an opcode in
neither dispatch table that the routing expression sends to the ALU. -/
def ramAll163 : CPUState := { initState with ram := fun _ => 163 }

/-- State for the C5 witness: compare registers 0 and 1 (both hold 0). -/
def stCmp : CPUState := { initState with operand_a := 0, operand_b := 1 }

/-- State for the C6 witness: Equal flag set, operand register 0. -/
def stJ : CPUState := { initState with FL := 0b00000001 }

/-- State for the C7 witness: LDI register 2, value 8. -/
def stL : CPUState := { initState with operand_a := 2, operand_b := 8 }

/-- State for C8: register 0 holds 1, register 1 holds 8; SHL shifts
register 0 left by 8 bits. -/
def stShl : CPUState :=
  { initState with
    operand_a := 0
    operand_b := 1
    register := fun i => if i = 0 then 1 else if i = 1 then 8 else if i = SP then 0xF4 else 0 }

/-- State for C8: register 0 holds 255, register 1 holds 0; SHR shifts
register 0 right by 0 bits. -/
def stShr : CPUState :=
  { initState with
    operand_a := 0
    operand_b := 1
    register := fun i => if i = 0 then 255 else if i = SP then 0xF4 else 0 }

/-! ## Helper lemmas -/

theorem pyGet_in_range (f : Nat → Int) (len : Nat) (i : Int)
    (h0 : 0 ≤ i) (h1 : i < (len : Int)) : pyGet f len i = some (f i.toNat) := by
  unfold pyGet
  rw [if_pos ⟨h0, h1⟩]

theorem pySet_in_range (f : Nat → Int) (len : Nat) (i v : Int)
    (h0 : 0 ≤ i) (h1 : i < (len : Int)) :
    pySet f len i v = some (setIdx f i.toNat v) := by
  unfold pySet
  rw [if_pos ⟨h0, h1⟩]

theorem setIdx_same (f : Nat → Int) (i : Nat) (v : Int) : setIdx f i v i = v := by
  simp [setIdx]

theorem route_test_cases (IR : Int) : CPU.route_test IR = 0 ∨ CPU.route_test IR = 1 := by
  unfold CPU.route_test
  rw [Int.fmod_eq_emod _ (by norm_num), Int.fdiv_eq_ediv _ (by norm_num)]
  omega

set_option maxHeartbeats 1600000 in
theorem ALU_no_invalid (st : CPUState) (op a b : Int) :
    (CPU.ALU st op a b).2 ≠ some Err.invalidInstruction := by
  intro hEq
  unfold CPU.ALU at hEq
  by_cases h1 : op = 160
  · rw [if_pos h1] at hEq
    repeat' split at hEq
    all_goals simp at hEq
  rw [if_neg h1] at hEq
  by_cases h2 : op = 161
  · rw [if_pos h2] at hEq
    repeat' split at hEq
    all_goals simp at hEq
  rw [if_neg h2] at hEq
  by_cases h3 : op = 162
  · rw [if_pos h3] at hEq
    repeat' split at hEq
    all_goals simp at hEq
  rw [if_neg h3] at hEq
  by_cases h4 : op = 167
  · rw [if_pos h4] at hEq
    repeat' split at hEq
    all_goals simp at hEq
  rw [if_neg h4] at hEq
  by_cases h5 : op = 168
  · rw [if_pos h5] at hEq
    repeat' split at hEq
    all_goals simp at hEq
  rw [if_neg h5] at hEq
  by_cases h6 : op = 170
  · rw [if_pos h6] at hEq
    repeat' split at hEq
    all_goals simp at hEq
  rw [if_neg h6] at hEq
  by_cases h7 : op = 171
  · rw [if_pos h7] at hEq
    repeat' split at hEq
    all_goals simp at hEq
  rw [if_neg h7] at hEq
  by_cases h8 : op = 105
  · rw [if_pos h8] at hEq
    repeat' split at hEq
    all_goals simp at hEq
  rw [if_neg h8] at hEq
  by_cases h9 : op = 172
  · rw [if_pos h9] at hEq
    repeat' split at hEq
    all_goals simp at hEq
  rw [if_neg h9] at hEq
  by_cases h10 : op = 173
  · rw [if_pos h10] at hEq
    repeat' split at hEq
    all_goals simp at hEq
  rw [if_neg h10] at hEq
  by_cases h11 : op = 164
  · rw [if_pos h11] at hEq
    repeat' split at hEq
    all_goals simp at hEq
  rw [if_neg h11] at hEq
  simp at hEq

set_option maxHeartbeats 800000 in
theorem instructions_no_invalid (m : Mnem) (st : CPUState) :
    (CPU.instructions m st).2 ≠ some Err.invalidInstruction := by
  intro hEq
  cases m <;>
    simp only [CPU.instructions, CPU.HALT, CPU.LOAD, CPU.PRINT, CPU.PUSH, CPU.POP,
      CPU.CALL, CPU.RET, CPU.JMP, CPU.JEQ, CPU.JNE] at hEq <;>
    (repeat' split at hEq) <;>
    simp at hEq

set_option maxHeartbeats 1600000 in
theorem step_no_invalid (st : CPUState) :
    (CPU.step st).2 ≠ some Err.invalidInstruction := by
  intro hEq
  unfold CPU.step at hEq
  repeat' split at hEq
  all_goals try simp at hEq
  all_goals (repeat' split at hEq)
  all_goals try simp at hEq
  all_goals
    first
    | (subst hEq
       rename_i hq hA
       first
       | exact ALU_no_invalid _ _ _ _ (by rw [hA])
       | exact instructions_no_invalid _ _ (by rw [hA]))
    | (rename_i hn1 hn0 x3 s3 b3 hq
       exact (route_test_cases _).elim hn0 hn1)

theorem step_keyerror (st : CPUState) (IR : Int)
    (hIR : pyGet st.ram RAM_LEN st.PC = some IR)
    (ha : (pyGet st.ram RAM_LEN (st.PC + 1)).isSome)
    (hb : (pyGet st.ram RAM_LEN (st.PC + 2)).isSome)
    (hroute : CPU.route_test IR = 0)
    (hbop : binary_op IR = none) :
    (CPU.step st).2 = some Err.keyError := by
  obtain ⟨a, hA⟩ := Option.isSome_iff_exists.mp ha
  obtain ⟨b, hB⟩ := Option.isSome_iff_exists.mp hb
  unfold CPU.step CPU.ram_read
  dsimp only
  rw [hIR]
  dsimp only
  rw [hA]
  dsimp only
  rw [hB]
  dsimp only
  rw [hroute]
  norm_num
  rw [hbop]

set_option maxRecDepth 8192 in
theorem pc_bit4_table : ∀ n : Nat, n < 256 →
    (((n / 16) % 2 = 0 → ((n * 8) % 255) / 128 ≠ 1) ∧
     (n ≠ 255 → (n / 16) % 2 = 1 → ((n * 8) % 255) / 128 = 1)) := by
  decide

theorem move_test_cast (n : Nat) :
    Int.fdiv (Int.fmod ((n : Int) * 8) 255) 128 = (((n * 8 % 255) / 128 : Nat) : Int) := by
  rw [Int.fmod_eq_emod _ (by norm_num), Int.fdiv_eq_ediv _ (by norm_num),
    Int.natCast_div, Int.natCast_mod]
  push_cast
  rfl

theorem fdiv_64_cast (n : Nat) : Int.fdiv (n : Int) 64 = ((n / 64 : Nat) : Int) := by
  rw [Int.fdiv_eq_ediv _ (by norm_num), Int.natCast_div]
  push_cast
  rfl

/-! ## The claims -/

/-- C1: the claim fails on the code.  `CPU.CALL` raises `AttributeError` on
its very first statement `self.reg[SP] -= 1` in every machine state, before
decrementing SP, before pushing any return address and before touching PC,
so no CALL/RET round trip ever takes place. -/
theorem C1_call_always_raises (st : CPUState) :
    CPU.CALL st = (st, some Err.attributeErrorReg) := rfl

/-- C2: the claim fails on the code.  `CPU.PUSH` never terminates normally
(its memory write reads the unassigned attribute `reg`), so a PUSH followed
by a POP can never restore the pre-push register value and stack pointer; at
the initial state the raised exception is the `AttributeError`. -/
theorem C2_push_never_completes :
    (∀ st : CPUState, (CPU.PUSH st).2 ≠ none) ∧
    (CPU.PUSH initState).2 = some Err.attributeErrorReg := by
  constructor
  · intro st
    unfold CPU.PUSH
    dsimp only
    split <;> simp
  · rfl

/-- C3: the claim fails on the code.  For a fetched opcode present in
neither table the dispatch loop does not reach its invalid-instruction
report: opcode 0 (at PC 0 of the zeroed initial memory) is routed to the
branch table and raises `KeyError` from the lookup `binary_op[IR]`, and
opcode 163 is routed to the ALU and raises the bare unsupported-operation
exception; in neither case is the report-and-exit branch taken. -/
theorem C3_unknown_opcode_keyerror :
    (CPU.step initState).2 = some Err.keyError ∧
    (CPU.step ramAll163).2 = some Err.unsupportedALU ∧
    (CPU.step initState).2 ≠ some Err.invalidInstruction ∧
    (CPU.step ramAll163).2 ≠ some Err.invalidInstruction := by
  decide

/-- C4 counterexample: at opcode 130 = 0b10000010 (LDI) bit 4 is clear and
bits 6 and 5 are zero, so the claim predicts an advance of 0 + 1 = 1, but
move_PC advances PC by 3; at opcode 255 bit 4 is set, but move_PC still
advances PC (by 4), because (255 << 3) % 255 wraps to 0. -/
theorem C4_counterexample :
    (130 / 16) % 2 = 0 ∧
    (CPU.move_PC initState ((130 : Nat) : Int)).PC ≠
      initState.PC + ((((130 / 32) % 4 : Nat) : Int) + 1) ∧
    (255 / 16) % 2 = 1 ∧
    (CPU.move_PC initState ((255 : Nat) : Int)).PC ≠ initState.PC := by
  decide

/-- C4 amended: for every opcode byte other than 255, move_PC adds
(bits 7 and 6 of the opcode) + 1 to PC when opcode bit 4 is clear and
leaves PC unchanged when bit 4 is set; at opcode 255 the test
(255 << 3) % 255 >> 7 wraps to 0, so PC advances by 4 although bit 4 is
set. -/
theorem C4_pc_advance (n : Nat) (h1 : n < 256) (st : CPUState) :
    (n ≠ 255 →
      ((n / 16) % 2 = 0 →
        (CPU.move_PC st (n : Int)).PC = st.PC + (((n / 64 : Nat) : Int) + 1)) ∧
      ((n / 16) % 2 = 1 → (CPU.move_PC st (n : Int)).PC = st.PC)) ∧
    (n = 255 → (CPU.move_PC st (n : Int)).PC = st.PC + 4) := by
  obtain ⟨k1, k2⟩ := pc_bit4_table n h1
  constructor
  · intro h255
    constructor
    · intro hbit
      unfold CPU.move_PC
      rw [if_pos (show Int.fdiv (Int.fmod ((n : Int) * 8) 255) 128 ≠ 1 by
        rw [move_test_cast]; exact_mod_cast k1 hbit)]
      dsimp only
      rw [fdiv_64_cast]
    · intro hbit
      unfold CPU.move_PC
      rw [if_neg (show ¬ Int.fdiv (Int.fmod ((n : Int) * 8) 255) 128 ≠ 1 by
        rw [move_test_cast]
        exact not_not_intro (by exact_mod_cast k2 h255 hbit))]
  · intro h255
    subst h255
    unfold CPU.move_PC
    rw [if_pos (show Int.fdiv (Int.fmod (((255 : Nat) : Int) * 8) 255) 128 ≠ 1 by decide)]
    dsimp only
    rw [show Int.fdiv ((255 : Nat) : Int) 64 = 3 by decide]
    norm_num

/-- C4 witness. -/
theorem C4_pc_advance_witness :
    (CPU.move_PC initState ((130 : Nat) : Int)).PC =
      initState.PC + (((130 / 64 : Nat) : Int) + 1) :=
  ((C4_pc_advance 130 (by decide) initState).1 (by decide)).1 (by decide)

/-- C5 claim. -/
theorem C5_cmp_exclusive_flags (st : CPUState)
    (ha0 : 0 ≤ st.operand_a) (ha1 : st.operand_a < 8)
    (hb0 : 0 ≤ st.operand_b) (hb1 : st.operand_b < 8)
    (hva0 : 0 ≤ st.register st.operand_a.toNat) (hva1 : st.register st.operand_a.toNat < 256)
    (hvb0 : 0 ≤ st.register st.operand_b.toNat) (hvb1 : st.register st.operand_b.toNat < 256) :
    (CPU.ALU st 0b10100111 st.operand_a st.operand_b).2 = none ∧
    (CPU.ALU st 0b10100111 st.operand_a st.operand_b).1.FL =
      (if st.register st.operand_a.toNat = st.register st.operand_b.toNat then 1
       else if st.register st.operand_a.toNat < st.register st.operand_b.toNat then 4
       else 2) := by
  have hga : pyGet st.register 8 st.operand_a = some (st.register st.operand_a.toNat) :=
    pyGet_in_range _ _ _ ha0 (by exact_mod_cast ha1)
  have hgb : pyGet st.register 8 st.operand_b = some (st.register st.operand_b.toNat) :=
    pyGet_in_range _ _ _ hb0 (by exact_mod_cast hb1)
  unfold CPU.ALU
  rw [if_neg (by decide : ¬ ((0b10100111 : Int) = 160)),
    if_neg (by decide : ¬ ((0b10100111 : Int) = 161)),
    if_neg (by decide : ¬ ((0b10100111 : Int) = 162)),
    if_pos (by decide : (0b10100111 : Int) = 167)]
  rw [hga, hgb]
  dsimp only
  refine ⟨rfl, ?_⟩
  rcases lt_trichotomy (st.register st.operand_a.toNat) (st.register st.operand_b.toNat)
    with h | h | h
  · rw [if_neg (lt_asymm h), if_pos h, if_neg h.ne, if_pos h]
  · simp [h]
  · rw [if_pos h, if_neg h.ne', if_neg (lt_asymm h)]

/-- C5 witness. -/
theorem C5_cmp_exclusive_flags_witness :
    (CPU.ALU stCmp 0b10100111 stCmp.operand_a stCmp.operand_b).2 = none ∧
    (CPU.ALU stCmp 0b10100111 stCmp.operand_a stCmp.operand_b).1.FL = 1 := by
  have h := C5_cmp_exclusive_flags stCmp (by decide) (by decide) (by decide) (by decide)
    (by decide) (by decide) (by decide) (by decide)
  exact ⟨h.1, by rw [h.2]; decide⟩

/-- C6 claim. -/
theorem C6_jeq_jne (st : CPUState) (h0 : 0 ≤ st.operand_a) (h1 : st.operand_a < 8) :
    (st.FL &&& 0b00000001 = 0 ∨ st.FL &&& 0b00000001 = 1) ∧
    (st.FL &&& 0b00000001 = 1 →
      (CPU.JEQ st).1.PC = st.register st.operand_a.toNat ∧ (CPU.JEQ st).2 = none ∧
      (CPU.JNE st).1.PC = st.PC + 2 ∧ (CPU.JNE st).2 = none) ∧
    (st.FL &&& 0b00000001 = 0 →
      (CPU.JEQ st).1.PC = st.PC + 2 ∧ (CPU.JEQ st).2 = none ∧
      (CPU.JNE st).1.PC = st.register st.operand_a.toNat ∧ (CPU.JNE st).2 = none) ∧
    (∀ t : CPUState, (CPU.move_PC t 0b01010101).PC = t.PC ∧
      (CPU.move_PC t 0b01010110).PC = t.PC) := by
  have hga : pyGet st.register 8 st.operand_a = some (st.register st.operand_a.toNat) :=
    pyGet_in_range _ _ _ h0 (by exact_mod_cast h1)
  refine ⟨?_, ?_, ?_, ?_⟩
  · rw [Nat.and_one_is_mod]
    omega
  · intro hfl
    unfold CPU.JEQ CPU.JNE
    rw [if_pos hfl, if_neg (show ¬ (st.FL &&& 0b00000001 = 0) by rw [hfl]; decide)]
    rw [hga]
    exact ⟨rfl, rfl, rfl, rfl⟩
  · intro hfl
    unfold CPU.JEQ CPU.JNE
    rw [if_pos hfl, if_neg (show ¬ (st.FL &&& 0b00000001 = 1) by rw [hfl]; decide)]
    rw [hga]
    exact ⟨rfl, rfl, rfl, rfl⟩
  · intro t
    constructor
    · unfold CPU.move_PC
      rw [if_neg (not_not_intro
        (by decide : Int.fdiv (Int.fmod ((0b01010101 : Int) * 8) 255) 128 = 1))]
    · unfold CPU.move_PC
      rw [if_neg (not_not_intro
        (by decide : Int.fdiv (Int.fmod ((0b01010110 : Int) * 8) 255) 128 = 1))]

/-- C6 witness. -/
theorem C6_jeq_jne_witness :
    (CPU.JEQ stJ).1.PC = stJ.register stJ.operand_a.toNat ∧ (CPU.JEQ stJ).2 = none ∧
    (CPU.JNE stJ).1.PC = stJ.PC + 2 ∧ (CPU.JNE stJ).2 = none :=
  (C6_jeq_jne stJ (by decide) (by decide)).2.1 (by decide)

/-- C7 claim. -/
theorem C7_ldi (st : CPUState) (h0 : 0 ≤ st.operand_a) (h1 : st.operand_a < 8)
    (hv0 : 0 ≤ st.operand_b) (hv1 : st.operand_b < 256) :
    (CPU.LOAD st).2 = none ∧
    (CPU.LOAD st).1.register st.operand_a.toNat = Int.fmod st.operand_b 256 := by
  unfold CPU.LOAD
  rw [pySet_in_range _ _ _ _ h0 (by exact_mod_cast h1)]
  dsimp only
  refine ⟨rfl, ?_⟩
  rw [setIdx_same, Int.fmod_eq_emod _ (by norm_num)]
  omega

/-- C7 witness. -/
theorem C7_ldi_witness :
    (CPU.LOAD stL).2 = none ∧
    (CPU.LOAD stL).1.register stL.operand_a.toNat = Int.fmod stL.operand_b 256 :=
  C7_ldi stL (by decide) (by decide) (by decide) (by decide)

/-- C8 counterexample: SHL of 1 by 8 bits stores 1 (256 mod 255), not
256 mod 256 = 0; SHR of 255 by 0 bits stores 0 (255 mod 255), not
255 mod 256 = 255.  The stored value is not the shifted value reduced to
8-bit range. -/
theorem C8_counterexample :
    (CPU.ALU stShl 0b10101100 stShl.operand_a stShl.operand_b).1.register 0 ≠
      Int.fmod (stShl.register 0 * 2 ^ (stShl.register 1).toNat) 256 ∧
    (CPU.ALU stShr 0b10101101 stShr.operand_a stShr.operand_b).1.register 0 ≠
      Int.fmod (Int.fdiv (stShr.register 0) (2 ^ (stShr.register 1).toNat)) 256 := by
  decide

/-- C8 amended. -/
theorem C8_shl_shr_mod255 (st : CPUState)
    (ha0 : 0 ≤ st.operand_a) (ha1 : st.operand_a < 8)
    (hb0 : 0 ≤ st.operand_b) (hb1 : st.operand_b < 8)
    (hn : 0 ≤ st.register st.operand_b.toNat) :
    ((CPU.ALU st 0b10101100 st.operand_a st.operand_b).2 = none ∧
     (CPU.ALU st 0b10101100 st.operand_a st.operand_b).1.register st.operand_a.toNat =
       Int.fmod (st.register st.operand_a.toNat * 2 ^ (st.register st.operand_b.toNat).toNat) 255 ∧
     0 ≤ (CPU.ALU st 0b10101100 st.operand_a st.operand_b).1.register st.operand_a.toNat ∧
     (CPU.ALU st 0b10101100 st.operand_a st.operand_b).1.register st.operand_a.toNat < 255) ∧
    ((CPU.ALU st 0b10101101 st.operand_a st.operand_b).2 = none ∧
     (CPU.ALU st 0b10101101 st.operand_a st.operand_b).1.register st.operand_a.toNat =
       Int.fmod (Int.fdiv (st.register st.operand_a.toNat)
         (2 ^ (st.register st.operand_b.toNat).toNat)) 255 ∧
     0 ≤ (CPU.ALU st 0b10101101 st.operand_a st.operand_b).1.register st.operand_a.toNat ∧
     (CPU.ALU st 0b10101101 st.operand_a st.operand_b).1.register st.operand_a.toNat < 255) := by
  have hga : pyGet st.register 8 st.operand_a = some (st.register st.operand_a.toNat) :=
    pyGet_in_range _ _ _ ha0 (by exact_mod_cast ha1)
  have hgb : pyGet st.register 8 st.operand_b = some (st.register st.operand_b.toNat) :=
    pyGet_in_range _ _ _ hb0 (by exact_mod_cast hb1)
  constructor
  · unfold CPU.ALU
    rw [if_neg (by decide : ¬ ((0b10101100 : Int) = 160)),
      if_neg (by decide : ¬ ((0b10101100 : Int) = 161)),
      if_neg (by decide : ¬ ((0b10101100 : Int) = 162)),
      if_neg (by decide : ¬ ((0b10101100 : Int) = 167)),
      if_neg (by decide : ¬ ((0b10101100 : Int) = 168)),
      if_neg (by decide : ¬ ((0b10101100 : Int) = 170)),
      if_neg (by decide : ¬ ((0b10101100 : Int) = 171)),
      if_neg (by decide : ¬ ((0b10101100 : Int) = 105)),
      if_pos (by decide : (0b10101100 : Int) = 172)]
    rw [hgb]
    dsimp only
    rw [hga]
    dsimp only
    rw [if_neg (not_lt.mpr hn),
      pySet_in_range _ _ _ _ ha0 (by exact_mod_cast ha1)]
    dsimp only
    refine ⟨rfl, setIdx_same _ _ _, ?_, ?_⟩
    · rw [setIdx_same, Int.fmod_eq_emod _ (by norm_num)]
      omega
    · rw [setIdx_same, Int.fmod_eq_emod _ (by norm_num)]
      omega
  · unfold CPU.ALU
    rw [if_neg (by decide : ¬ ((0b10101101 : Int) = 160)),
      if_neg (by decide : ¬ ((0b10101101 : Int) = 161)),
      if_neg (by decide : ¬ ((0b10101101 : Int) = 162)),
      if_neg (by decide : ¬ ((0b10101101 : Int) = 167)),
      if_neg (by decide : ¬ ((0b10101101 : Int) = 168)),
      if_neg (by decide : ¬ ((0b10101101 : Int) = 170)),
      if_neg (by decide : ¬ ((0b10101101 : Int) = 171)),
      if_neg (by decide : ¬ ((0b10101101 : Int) = 105)),
      if_neg (by decide : ¬ ((0b10101101 : Int) = 172)),
      if_pos (by decide : (0b10101101 : Int) = 173)]
    rw [hgb]
    dsimp only
    rw [hga]
    dsimp only
    rw [if_neg (not_lt.mpr hn),
      pySet_in_range _ _ _ _ ha0 (by exact_mod_cast ha1)]
    dsimp only
    refine ⟨rfl, setIdx_same _ _ _, ?_, ?_⟩
    · rw [setIdx_same, Int.fmod_eq_emod _ (by norm_num)]
      omega
    · rw [setIdx_same, Int.fmod_eq_emod _ (by norm_num)]
      omega

/-- C8 witness. -/
theorem C8_shl_shr_mod255_witness :
    ((CPU.ALU stShl 0b10101100 stShl.operand_a stShl.operand_b).2 = none ∧
     (CPU.ALU stShl 0b10101100 stShl.operand_a stShl.operand_b).1.register stShl.operand_a.toNat =
       Int.fmod (stShl.register stShl.operand_a.toNat *
         2 ^ (stShl.register stShl.operand_b.toNat).toNat) 255 ∧
     0 ≤ (CPU.ALU stShl 0b10101100 stShl.operand_a stShl.operand_b).1.register
       stShl.operand_a.toNat ∧
     (CPU.ALU stShl 0b10101100 stShl.operand_a stShl.operand_b).1.register
       stShl.operand_a.toNat < 255) ∧
    ((CPU.ALU stShl 0b10101101 stShl.operand_a stShl.operand_b).2 = none ∧
     (CPU.ALU stShl 0b10101101 stShl.operand_a stShl.operand_b).1.register stShl.operand_a.toNat =
       Int.fmod (Int.fdiv (stShl.register stShl.operand_a.toNat)
         (2 ^ (stShl.register stShl.operand_b.toNat).toNat)) 255 ∧
     0 ≤ (CPU.ALU stShl 0b10101101 stShl.operand_a stShl.operand_b).1.register
       stShl.operand_a.toNat ∧
     (CPU.ALU stShl 0b10101101 stShl.operand_a stShl.operand_b).1.register
       stShl.operand_a.toNat < 255) :=
  C8_shl_shr_mod255 stShl (by decide) (by decide) (by decide) (by decide) (by decide)

/-- C9 claim. -/
theorem C9_routing_total :
    (∀ IR : Int, 0 ≤ IR → IR < 256 → CPU.route_test IR = 0 ∨ CPU.route_test IR = 1) ∧
    (∀ st : CPUState, (CPU.step st).2 ≠ some Err.invalidInstruction) ∧
    (∀ st : CPUState, ∀ IR : Int,
      pyGet st.ram RAM_LEN st.PC = some IR →
      (pyGet st.ram RAM_LEN (st.PC + 1)).isSome →
      (pyGet st.ram RAM_LEN (st.PC + 2)).isSome →
      CPU.route_test IR = 0 → binary_op IR = none →
      (CPU.step st).2 = some Err.keyError) :=
  ⟨fun IR _ _ => route_test_cases IR, step_no_invalid, step_keyerror⟩

/-- C9 witness. -/
theorem C9_routing_total_witness :
    (CPU.route_test 0 = 0 ∨ CPU.route_test 0 = 1) ∧
    (CPU.step initState).2 ≠ some Err.invalidInstruction ∧
    (CPU.step initState).2 = some Err.keyError :=
  ⟨C9_routing_total.1 0 (by decide) (by decide),
   C9_routing_total.2.1 initState,
   C9_routing_total.2.2 initState 0 (by decide) (by decide) (by decide) (by decide) (by decide)⟩

/-- C10: whenever `CPU.PUSH` terminates with an error — which it always
does, since its memory write reads the attribute `reg` that is never
assigned on the CPU — the stack-pointer register (register 7) has already
been decremented, so the machine state is not left unchanged on error. -/
theorem C10_push_decrements_sp_before_error (st : CPUState) :
    (CPU.PUSH st).2 ≠ none ∧
    (CPU.PUSH st).1.register SP = st.register SP - 1 := by
  unfold CPU.PUSH
  dsimp only
  constructor
  · split <;> simp
  · split <;> simp [setIdx]
